import Mathlib

/-! gocelery AMQP broker: a shallow embedding of amqp_broker.go

The broker code is a thin sequential layer over the AMQP client library, the
JSON codec and the clock.  Every library call the code makes is recorded, in
program order, in the trace of a `World`; what the library answers is given by
an `Env` of answer functions, which may depend on the whole history.  The
consuming stream is a Go receive-only channel, modelled with the receive
semantics of the Go language.

`CM` and `TM` stand for the types `CeleryMessage` and `TaskMessage`, which
amqp_broker.go uses but does not declare.
-/

namespace GoCelery

/-- A Go byte slice. The nil slice and the empty slice are both `[]`. -/
abbrev Bytes := List Nat

/-- A Go `error` value produced by a library. -/
structure GoError where
  msg : String
deriving DecidableEq, Repr

/-- AMQPExchange stores AMQP Exchange configuration. The Go field `Type` is
named `Kind` here, `Type` being reserved. -/
structure AMQPExchange where
  Name : String
  Kind : String
  Durable : Bool
  AutoDelete : Bool
deriving DecidableEq, Repr

/-- NewAMQPExchange creates new AMQPExchange. -/
def NewAMQPExchange (name : String) : AMQPExchange :=
  { Name := name, Kind := "direct", Durable := true, AutoDelete := true }

/-- AMQPQueue stores AMQP Queue configuration. -/
structure AMQPQueue where
  Name : String
  Durable : Bool
  AutoDelete : Bool
deriving DecidableEq, Repr

/-- NewAMQPQueue creates new AMQPQueue. -/
def NewAMQPQueue (name : String) : AMQPQueue :=
  { Name := name, Durable := true, AutoDelete := false }

/-- The value of `amqp.Persistent` in the client library. -/
def Persistent : Nat := 2

/-- The fields of `amqp.Publishing` that SendCeleryMessage sets; every other
field of the Go struct keeps its zero value. -/
structure Publishing where
  DeliveryMode : Nat
  Timestamp : Nat
  ContentType : String
  Body : Bytes
deriving DecidableEq, Repr

/-- An `amqp.Delivery`, reduced to its delivery tag and body. -/
structure Delivery where
  DeliveryTag : Nat
  Body : Bytes
deriving DecidableEq, Repr

/-- The Go zero value of `amqp.Delivery`, which a receive from a closed
channel yields. -/
def Delivery.zero : Delivery := { DeliveryTag := 0, Body := [] }

/-- One call made by the broker code into a library, with its arguments in the
order of the Go signature. Connections, channels and streams are named by
numbers. The `args` table of the declare and consume calls is always nil in
the source and is left out. `connectionClose` is `(*amqp.Connection).Close`. -/
inductive Call (TM : Type) where
  | dial (host : String)
  | connectionChannel (conn : Nat)
  | connectionClose (conn : Nat)
  | exchangeDeclare (ch : Nat) (name kind : String)
      (durable autoDelete internal noWait : Bool)
  | queueDeclare (ch : Nat) (name : String)
      (durable autoDelete exclusive noWait : Bool)
  | qos (ch : Nat) (prefetchCount prefetchSize : Int) (global : Bool)
  | consume (ch : Nat) (queue consumer : String)
      (autoAck exclusive noLocal noWait : Bool)
  | publish (ch : Nat) (exchange key : String) (mandatory immediate : Bool)
      (msg : Publishing)
  | ack (d : Delivery) (multiple : Bool)
  | jsonMarshal (v : TM)
  | jsonUnmarshal (data : Bytes)
deriving DecidableEq, Repr

/-- The state of a Go channel of deliveries: what is still to be received, in
order, and whether the channel has been closed. -/
structure GoChan where
  pending : List Delivery
  closed : Bool
deriving DecidableEq, Repr

/-- The world outside the broker value: the calls made so far, oldest first,
and the state of every delivery stream. -/
structure World (TM : Type) where
  trace : List (Call TM)
  chans : Nat → GoChan

/-- The answers of the libraries. Each answer may depend on the history of
calls. `fails` gives the error result of the calls that return only an error
(or whose other result the code discards). -/
structure Env (CM TM : Type) where
  dial : List (Call TM) → String → Except GoError Nat
  connectionChannel : List (Call TM) → Nat → Except GoError Nat
  consume : List (Call TM) → Call TM → Except GoError Nat
  fails : List (Call TM) → Call TM → Option GoError
  getTaskMessage : CM → TM
  marshal : TM → Except GoError Bytes
  unmarshal : Bytes → Except GoError TM
  now : List (Call TM) → Nat

/-- AMQPCeleryBroker. `Channel` is the embedded `*amqp.Channel`;
`consumingChannel` is `none` for the nil Go channel. -/
structure AMQPCeleryBroker where
  Channel : Nat
  connection : Nat
  exchange : AMQPExchange
  queue : AMQPQueue
  consumingChannel : Option Nat
  rate : Int
deriving DecidableEq, Repr

variable {CM TM : Type}

/-- Record a call at the end of the trace. -/
def World.log (w : World TM) (c : Call TM) : World TM :=
  { w with trace := w.trace ++ [c] }

/-- Make an error-returning library call: its answer and the world after. -/
def World.call (env : Env CM TM) (w : World TM) (c : Call TM) :
    Option GoError × World TM :=
  (env.fails w.trace c, w.log c)

/-- The Go receive expression on a channel of deliveries. A nil channel and an
open channel with nothing to receive block (`none`); a closed channel with
nothing left yields the zero value. -/
def World.recv (w : World TM) : Option Nat → Option (Delivery × World TM)
  | none => none
  | some s =>
    match (w.chans s).pending with
    | d :: rest =>
      some (d, { w with chans := fun i =>
        if i = s then { pending := rest, closed := (w.chans s).closed } else w.chans i })
    | [] => if (w.chans s).closed then some (Delivery.zero, w) else none

/-- NewAMQPConnection creates new AMQP channel. An error result stands for
the Go triple (nil, nil, err). -/
def NewAMQPConnection (env : Env CM TM) (w : World TM) (host : String) :
    Except GoError (Nat × Nat) × World TM :=
  let w1 := w.log (.dial host)
  match env.dial w.trace host with
  | .error err => (.error err, w1)
  | .ok connection =>
    let w2 := w1.log (.connectionChannel connection)
    match env.connectionChannel w1.trace connection with
    | .error err => (.error err, w2)
    | .ok channel => (.ok (connection, channel), w2)

/-- CreateExchange declares AMQP exchange with stored configuration. -/
def CreateExchange (env : Env CM TM) (w : World TM) (b : AMQPCeleryBroker) :
    Option GoError × World TM :=
  w.call env (.exchangeDeclare b.Channel b.exchange.Name b.exchange.Kind
    b.exchange.Durable b.exchange.AutoDelete false false)

/-- CreateQueue declares AMQP Queue with stored configuration. -/
def CreateQueue (env : Env CM TM) (w : World TM) (b : AMQPCeleryBroker) :
    Option GoError × World TM :=
  w.call env (.queueDeclare b.Channel b.queue.Name b.queue.Durable
    b.queue.AutoDelete false false)

/-- StartConsumingChannel spawns receiving channel on AMQP queue. Returns the
error, the broker after the call and the world after the call. -/
def StartConsumingChannel (env : Env CM TM) (w : World TM) (b : AMQPCeleryBroker) :
    Option GoError × AMQPCeleryBroker × World TM :=
  let c : Call TM := .consume b.Channel b.queue.Name "" false false false false
  match env.consume w.trace c with
  | .error err => (some err, b, w.log c)
  | .ok channel => (none, { b with consumingChannel := some channel }, w.log c)

/-- NewAMQPCeleryBrokerWithOptions creates new AMQPCeleryBroker. An error
result stands for the Go pair (nil, err). -/
def NewAMQPCeleryBrokerWithOptions (env : Env CM TM) (w : World TM)
    (host exchangeName queueName : String) (rate : Int) (consumable : Bool) :
    Except GoError AMQPCeleryBroker × World TM :=
  match NewAMQPConnection env w host with
  | (.error err, w1) => (.error err, w1)
  | (.ok (conn, channel), w1) =>
    let broker : AMQPCeleryBroker :=
      { Channel := channel, connection := conn,
        exchange := NewAMQPExchange exchangeName,
        queue := NewAMQPQueue queueName,
        consumingChannel := none,
        rate := rate }
    match CreateExchange env w1 broker with
    | (some err, w2) => (.error err, w2)
    | (none, w2) =>
      match CreateQueue env w2 broker with
      | (some err, w3) => (.error err, w3)
      | (none, w3) =>
        match w3.call env (.qos broker.Channel broker.rate 0 false) with
        | (some err, w4) => (.error err, w4)
        | (none, w4) =>
          if consumable then
            match StartConsumingChannel env w4 broker with
            | (some err, _, w5) => (.error err, w5)
            | (none, broker5, w5) => (.ok broker5, w5)
          else (.ok broker, w4)

/-- NewAMQPCeleryBroker creates new AMQPCeleryBroker. -/
def NewAMQPCeleryBroker (env : Env CM TM) (w : World TM) (host : String) :
    Except GoError AMQPCeleryBroker × World TM :=
  NewAMQPCeleryBrokerWithOptions env w host "default" "celery" 4 true

/-- SendCeleryMessage sends CeleryMessage to broker. -/
def SendCeleryMessage (env : Env CM TM) (w : World TM) (b : AMQPCeleryBroker)
    (message : CM) : Option GoError × World TM :=
  let taskMessage := env.getTaskMessage message
  let queueName := b.queue.Name
  match w.call env (.queueDeclare b.Channel queueName true false false false) with
  | (some err, w1) => (some err, w1)
  | (none, w1) =>
    match w1.call env
        (.exchangeDeclare b.Channel "default" "direct" true true false false) with
    | (some err, w2) => (some err, w2)
    | (none, w2) =>
      let w3 := w2.log (.jsonMarshal taskMessage)
      match env.marshal taskMessage with
      | .error err => (some err, w3)
      | .ok resBytes =>
        let publishMessage : Publishing :=
          { DeliveryMode := Persistent, Timestamp := env.now w3.trace,
            ContentType := "application/json", Body := resBytes }
        w3.call env (.publish b.Channel "" queueName false false publishMessage)

/-- GetTaskMessage retrieves task message from AMQP queue. `none` when the
receive never returns; otherwise the result (an error result stands for the
Go pair (nil, err)) and the world after. The error result of `delivery.Ack`
is discarded, as in the source. -/
def GetTaskMessage (env : Env CM TM) (w : World TM) (b : AMQPCeleryBroker) :
    Option (Except GoError TM × World TM) :=
  match w.recv b.consumingChannel with
  | none => none
  | some (delivery, w1) =>
    let w2 := (w1.call env (.ack delivery false)).2
    let w3 := w2.log (.jsonUnmarshal delivery.Body)
    match env.unmarshal delivery.Body with
    | .error err => some (.error err, w3)
    | .ok taskMessage => some (.ok taskMessage, w3)

/-- Whether a call is a delivery acknowledgment. -/
def Call.isAck : Call TM → Bool
  | .ack _ _ => true
  | _ => false

/-- Whether a call is a queue declaration. -/
def Call.isQueueDeclare : Call TM → Bool
  | .queueDeclare _ _ _ _ _ _ => true
  | _ => false

/-- Whether a call is an exchange declaration. -/
def Call.isExchangeDeclare : Call TM → Bool
  | .exchangeDeclare _ _ _ _ _ _ _ => true
  | _ => false

/-- Whether a call is a publish. -/
def Call.isPublish : Call TM → Bool
  | .publish _ _ _ _ _ _ => true
  | _ => false

/-- The exchange name and routing key of a publish call. -/
def Call.publishRoute : Call TM → Option (String × String)
  | .publish _ exchange key _ _ _ => some (exchange, key)
  | _ => none

/-- The name, kind, durable flag and auto-delete flag of an exchange
declaration. -/
def Call.exchangeDecl : Call TM → Option (String × String × Bool × Bool)
  | .exchangeDeclare _ name kind durable autoDelete _ _ =>
    some (name, kind, durable, autoDelete)
  | _ => none

/-- The name, durable flag and auto-delete flag of a queue declaration. -/
def Call.queueDecl : Call TM → Option (String × Bool × Bool)
  | .queueDeclare _ name durable autoDelete _ _ => some (name, durable, autoDelete)
  | _ => none

/-! ## Concrete environments used to evaluate the code

Task messages are numbers; the number `n` is serialized as the three bytes
`[123, n, 125]`. -/

/-- The error `json.Unmarshal` reports for an empty input. -/
def errUnexpectedEnd : GoError := ⟨"unexpected end of JSON input"⟩

/-- A toy JSON decoder: the empty input and every malformed input is an
error. -/
def demoUnmarshal : Bytes → Except GoError Nat
  | [] => .error errUnexpectedEnd
  | [123, n, 125] => .ok n
  | _ => .error ⟨"invalid character"⟩

/-- An environment in which every library call succeeds: dialling gives
connection 1, opening a channel gives channel 2, consuming gives stream 3. -/
def demoEnv : Env Nat Nat where
  dial := fun _ _ => .ok 1
  connectionChannel := fun _ _ => .ok 2
  consume := fun _ _ => .ok 3
  fails := fun _ _ => none
  getTaskMessage := fun m => m
  marshal := fun n => .ok [123, n, 125]
  unmarshal := demoUnmarshal
  now := fun t => t.length

/-- As `demoEnv`, but opening a channel on the dialled connection fails. -/
def noChannelEnv : Env Nat Nat :=
  { demoEnv with connectionChannel := fun _ _ => .error ⟨"channel open failed"⟩ }

/-- As `demoEnv`, but opening the consuming stream fails. -/
def noConsumeEnv : Env Nat Nat :=
  { demoEnv with consume := fun _ _ => .error ⟨"no such queue"⟩ }

/-- As `demoEnv`, but every queue declaration fails. -/
def noQueueEnv : Env Nat Nat :=
  { demoEnv with
    fails := fun _ c => if c.isQueueDeclare then some ⟨"queue declare failed"⟩ else none }

/-- As `demoEnv`, but every exchange declaration fails. -/
def noExchangeEnv : Env Nat Nat :=
  { demoEnv with
    fails := fun _ c =>
      if c.isExchangeDeclare then some ⟨"exchange declare failed"⟩ else none }

/-- As `demoEnv`, but serialization fails. -/
def noMarshalEnv : Env Nat Nat :=
  { demoEnv with marshal := fun _ => .error ⟨"unsupported value"⟩ }

/-- As `demoEnv`, but every publish fails. -/
def noPublishEnv : Env Nat Nat :=
  { demoEnv with
    fails := fun _ c => if c.isPublish then some ⟨"channel closed"⟩ else none }

/-- A world with no call made yet, in which stream 3 holds the given
deliveries and is open or closed as given. -/
def demoWorld (pending : List Delivery) (closed : Bool) : World Nat :=
  { trace := [], chans := fun _ => { pending := pending, closed := closed } }

/-- The broker NewAMQPCeleryBroker builds in `demoEnv`. -/
def demoBroker : AMQPCeleryBroker :=
  { Channel := 2, connection := 1, exchange := NewAMQPExchange "default",
    queue := NewAMQPQueue "celery", consumingChannel := some 3, rate := 4 }

end GoCelery

/-! ## Theorems -/

namespace GoCelery

variable {CM TM : Type}

/-- Receiving from a stream with a pending delivery yields that delivery and
leaves the rest of the stream in place. -/
theorem recv_pending (w : World TM) (s : Nat) (d : Delivery) (rest : List Delivery)
    (hp : (w.chans s).pending = d :: rest) :
    ∃ w1 : World TM, w.recv (some s) = some (d, w1) ∧ w1.trace = w.trace ∧
      (w1.chans s).pending = rest ∧ (w1.chans s).closed = (w.chans s).closed := by
  refine ⟨{ w with chans := fun i =>
      if i = s then { pending := rest, closed := (w.chans s).closed } else w.chans i },
    ?_, rfl, ?_, ?_⟩
  · simp only [World.recv, hp]
  · simp
  · simp

/-- Receiving from a closed stream with nothing pending yields the zero
delivery and changes nothing. -/
theorem recv_closed (w : World TM) (s : Nat)
    (hp : (w.chans s).pending = []) (hc : (w.chans s).closed = true) :
    w.recv (some s) = some (Delivery.zero, w) := by
  simp only [World.recv, hp, hc, if_true]

/-- What GetTaskMessage does once the receive has produced a delivery. -/
theorem GetTaskMessage_of_recv (env : Env CM TM) (w w1 : World TM)
    (b : AMQPCeleryBroker) (d : Delivery)
    (hr : w.recv b.consumingChannel = some (d, w1)) :
    GetTaskMessage env w b =
      some (env.unmarshal d.Body,
        (w1.log (.ack d false)).log (.jsonUnmarshal d.Body)) := by
  simp only [GetTaskMessage, hr, World.call]
  cases env.unmarshal d.Body <;> rfl

/-- C1: when the consuming stream holds a delivery, GetTaskMessage returns, and
the calls it made are exactly one acknowledgment of that delivery, with
multiple = false, followed by the deserialization of its body; this holds
whatever the deserialization gives, and the number of acknowledgments in the
trace has grown by exactly one. -/
theorem GetTaskMessage_acks_once_before_unmarshal (env : Env CM TM) (w : World TM)
    (b : AMQPCeleryBroker) (s : Nat) (d : Delivery) (rest : List Delivery)
    (hs : b.consumingChannel = some s) (hp : (w.chans s).pending = d :: rest) :
    ∃ w1 : World TM,
      GetTaskMessage env w b = some (env.unmarshal d.Body, w1) ∧
      w1.trace = w.trace ++ [Call.ack d false, Call.jsonUnmarshal d.Body] ∧
      w1.trace.countP Call.isAck = w.trace.countP Call.isAck + 1 := by
  obtain ⟨w1, hr, ht, -, -⟩ := recv_pending w s d rest hp
  rw [← hs] at hr
  refine ⟨_, GetTaskMessage_of_recv env w w1 b d hr, ?_, ?_⟩
  · simp [World.log, ht]
  · simp [World.log, ht, List.countP_append, List.countP_cons, Call.isAck]

/-- C1 witness: a stream holding one well-formed delivery. -/
theorem GetTaskMessage_acks_once_before_unmarshal_witness :
    ∃ w1 : World Nat,
      GetTaskMessage demoEnv (demoWorld [⟨1, [123, 5, 125]⟩] false) demoBroker
        = some (demoEnv.unmarshal [123, 5, 125], w1) ∧
      w1.trace = [] ++ [Call.ack ⟨1, [123, 5, 125]⟩ false, Call.jsonUnmarshal [123, 5, 125]] ∧
      w1.trace.countP Call.isAck = ([] : List (Call Nat)).countP Call.isAck + 1 :=
  GetTaskMessage_acks_once_before_unmarshal demoEnv
    (demoWorld [⟨1, [123, 5, 125]⟩] false) demoBroker 3 ⟨1, [123, 5, 125]⟩ [] rfl rfl

/-- C2, as stated, fails: on a closed stream GetTaskMessage returns the error
of deserializing an empty body, the very error it returns for a delivery with
an empty (malformed) body on an open stream. -/
theorem GetTaskMessage_closed_not_distinct :
    (GetTaskMessage demoEnv (demoWorld [] true) demoBroker).map Prod.fst
      = some (.error errUnexpectedEnd) ∧
    (GetTaskMessage demoEnv (demoWorld [⟨1, []⟩] false) demoBroker).map Prod.fst
      = some (.error errUnexpectedEnd) ∧
    demoEnv.unmarshal [] = .error errUnexpectedEnd := by
  refine ⟨rfl, rfl, rfl⟩

/-- C2 amended: when the consuming stream is closed and drained and the JSON
decoder rejects the empty input, GetTaskMessage returns no task message; it
acknowledges and deserializes the zero delivery and returns the decoder error
for the empty body, which is also what it returns for any delivery with an
empty body pulled from an open stream. -/
theorem GetTaskMessage_closed_stream (env : Env CM TM) (w : World TM)
    (b : AMQPCeleryBroker) (s : Nat) (e : GoError)
    (hs : b.consumingChannel = some s)
    (hp : (w.chans s).pending = []) (hc : (w.chans s).closed = true)
    (he : env.unmarshal [] = .error e) :
    (∃ w1 : World TM, GetTaskMessage env w b = some (.error e, w1) ∧
      w1.trace = w.trace ++ [Call.ack Delivery.zero false, Call.jsonUnmarshal []]) ∧
    (∀ (v : World TM) (d : Delivery) (rest : List Delivery),
      (v.chans s).pending = d :: rest → d.Body = [] →
      (GetTaskMessage env v b).map Prod.fst = some (.error e)) := by
  constructor
  · have hr := recv_closed w s hp hc
    rw [← hs] at hr
    refine ⟨(w.log (.ack Delivery.zero false)).log (.jsonUnmarshal Delivery.zero.Body),
      ?_, ?_⟩
    · rw [GetTaskMessage_of_recv env w w b Delivery.zero hr]
      simp only [Delivery.zero, he]
    · simp [World.log, Delivery.zero]
  · intro v d rest hv hd
    obtain ⟨v1, hr, -, -, -⟩ := recv_pending v s d rest hv
    rw [← hs] at hr
    rw [GetTaskMessage_of_recv env v v1 b d hr, hd, he]
    rfl

/-- C2 amended, witness: the closed, drained stream of `demoWorld`. -/
theorem GetTaskMessage_closed_stream_witness :
    (∃ w1 : World Nat,
      GetTaskMessage demoEnv (demoWorld [] true) demoBroker
        = some (.error errUnexpectedEnd, w1) ∧
      w1.trace = [] ++ [Call.ack Delivery.zero false, Call.jsonUnmarshal []]) ∧
    (∀ (v : World Nat) (d : Delivery) (rest : List Delivery),
      (v.chans 3).pending = d :: rest → d.Body = [] →
      (GetTaskMessage demoEnv v demoBroker).map Prod.fst
        = some (.error errUnexpectedEnd)) :=
  GetTaskMessage_closed_stream demoEnv (demoWorld [] true) demoBroker 3
    errUnexpectedEnd rfl rfl rfl rfl

/-- C6: when the body of the first pending delivery cannot be deserialized,
GetTaskMessage returns the deserialization error and no task message, the
stream is left holding the deliveries that followed, and the next
GetTaskMessage on the same broker reads the next delivery and, its body being
well-formed, returns its task message. -/
theorem GetTaskMessage_error_keeps_stream (env : Env CM TM) (w : World TM)
    (b : AMQPCeleryBroker) (s : Nat) (d1 d2 : Delivery) (rest : List Delivery)
    (e : GoError) (tm : TM)
    (hs : b.consumingChannel = some s)
    (hp : (w.chans s).pending = d1 :: d2 :: rest)
    (h1 : env.unmarshal d1.Body = .error e)
    (h2 : env.unmarshal d2.Body = .ok tm) :
    ∃ w1 w2 : World TM,
      GetTaskMessage env w b = some (.error e, w1) ∧
      (w1.chans s).pending = d2 :: rest ∧
      (w1.chans s).closed = (w.chans s).closed ∧
      GetTaskMessage env w1 b = some (.ok tm, w2) ∧
      (w2.chans s).pending = rest ∧
      w2.trace = w.trace ++ [Call.ack d1 false, Call.jsonUnmarshal d1.Body,
        Call.ack d2 false, Call.jsonUnmarshal d2.Body] := by
  obtain ⟨v1, hr1, ht1, hp1, hc1⟩ := recv_pending w s d1 (d2 :: rest) hp
  rw [← hs] at hr1
  have hp1w : (((v1.log (.ack d1 false)).log (.jsonUnmarshal d1.Body)).chans s).pending
      = d2 :: rest := hp1
  obtain ⟨v2, hr2, ht2, hp2, -⟩ :=
    recv_pending ((v1.log (.ack d1 false)).log (.jsonUnmarshal d1.Body)) s d2 rest hp1w
  rw [← hs] at hr2
  refine ⟨(v1.log (.ack d1 false)).log (.jsonUnmarshal d1.Body),
    (v2.log (.ack d2 false)).log (.jsonUnmarshal d2.Body), ?_, hp1w, hc1, ?_, ?_, ?_⟩
  · rw [GetTaskMessage_of_recv env w v1 b d1 hr1, h1]
  · rw [GetTaskMessage_of_recv env _ v2 b d2 hr2, h2]
  · exact hp2
  · simp [World.log, ht2, ht1]

/-- C6 witness: a malformed delivery followed by a well-formed one. -/
theorem GetTaskMessage_error_keeps_stream_witness :
    ∃ w1 w2 : World Nat,
      GetTaskMessage demoEnv (demoWorld [⟨1, [9]⟩, ⟨2, [123, 5, 125]⟩] false) demoBroker
        = some (.error ⟨"invalid character"⟩, w1) ∧
      (w1.chans 3).pending = [⟨2, [123, 5, 125]⟩] ∧
      (w1.chans 3).closed = false ∧
      GetTaskMessage demoEnv w1 demoBroker = some (.ok 5, w2) ∧
      (w2.chans 3).pending = [] ∧
      w2.trace = [] ++ [Call.ack ⟨1, [9]⟩ false, Call.jsonUnmarshal [9],
        Call.ack ⟨2, [123, 5, 125]⟩ false, Call.jsonUnmarshal [123, 5, 125]] :=
  GetTaskMessage_error_keeps_stream demoEnv
    (demoWorld [⟨1, [9]⟩, ⟨2, [123, 5, 125]⟩] false) demoBroker 3
    ⟨1, [9]⟩ ⟨2, [123, 5, 125]⟩ [] ⟨"invalid character"⟩ 5 rfl rfl rfl rfl

/-- C3, code evaluated where dialling succeeds and opening the channel fails:
NewAMQPConnection returns the error with no connection and no channel, and the
only calls it has made are the dial and the channel open; the dialled
connection 1 is never closed. -/
theorem NewAMQPConnection_leaves_connection_open :
    (NewAMQPConnection noChannelEnv (demoWorld [] false) "amqp://host").1
      = .error ⟨"channel open failed"⟩ ∧
    (NewAMQPConnection noChannelEnv (demoWorld [] false) "amqp://host").2.trace
      = [Call.dial "amqp://host", Call.connectionChannel 1] ∧
    Call.connectionClose 1 ∉
      (NewAMQPConnection noChannelEnv (demoWorld [] false) "amqp://host").2.trace := by
  refine ⟨rfl, by decide, by decide⟩

/-- C4, as stated, fails: for the broker of queue "celery" the one publish
SendCeleryMessage issues has the empty string as exchange and "celery", not
the empty string, as routing key. -/
theorem SendCeleryMessage_routing_key_not_empty :
    (SendCeleryMessage demoEnv (demoWorld [] false) demoBroker 7).2.trace.filterMap
      Call.publishRoute = [("", "celery")] := by
  decide

/-- C4 amended: every publish SendCeleryMessage issues names the empty
(default) exchange and carries the queue name of the broker as routing key. -/
theorem SendCeleryMessage_publish_route (env : Env CM TM) (w : World TM)
    (b : AMQPCeleryBroker) (message : CM) (ch : Nat) (exchange key : String)
    (mandatory immediate : Bool) (msg : Publishing)
    (h : Call.publish ch exchange key mandatory immediate msg ∈
      (SendCeleryMessage env w b message).2.trace.drop w.trace.length) :
    exchange = "" ∧ key = b.queue.Name := by
  simp only [SendCeleryMessage, World.call, World.log] at h
  cases h1 : env.fails w.trace
      (Call.queueDeclare b.Channel b.queue.Name true false false false) with
  | some e => simp [h1] at h
  | none =>
    simp only [h1] at h
    cases h2 : env.fails
        (w.trace ++ [Call.queueDeclare b.Channel b.queue.Name true false false false])
        (Call.exchangeDeclare b.Channel "default" "direct" true true false false) with
    | some e => simp [h2] at h
    | none =>
      simp only [h2] at h
      cases h3 : env.marshal (env.getTaskMessage message) with
      | error e => simp [h3] at h
      | ok body =>
        simp [h3] at h
        exact ⟨h.2.1, h.2.2.1⟩

/-- C4 amended, witness: the publish issued for `demoBroker`. -/
theorem SendCeleryMessage_publish_route_witness :
    Call.publish 2 "" "celery" false false
        { DeliveryMode := 2, Timestamp := 3, ContentType := "application/json",
          Body := [123, 7, 125] } ∈
      (SendCeleryMessage demoEnv (demoWorld [] false) demoBroker 7).2.trace.drop
        (demoWorld [] false).trace.length ∧
    ("" = "" ∧ "celery" = demoBroker.queue.Name) :=
  ⟨by decide,
   SendCeleryMessage_publish_route demoEnv (demoWorld [] false) demoBroker 7 2 "" "celery"
     false false
     { DeliveryMode := 2, Timestamp := 3, ContentType := "application/json",
       Body := [123, 7, 125] } (by decide)⟩

/-- C5, code evaluated for a broker built with exchange name "tasks": the
construction declares the exchange "tasks", and so does CreateExchange, while
SendCeleryMessage declares the exchange "default"; the queue declarations
agree. -/
theorem SendCeleryMessage_declares_default_exchange :
    ∃ b : AMQPCeleryBroker,
      (NewAMQPCeleryBrokerWithOptions demoEnv (demoWorld [] false)
        "amqp://host" "tasks" "celery" 4 true).1 = .ok b ∧
      (CreateExchange demoEnv (demoWorld [] false) b).2.trace.filterMap Call.exchangeDecl
        = [("tasks", "direct", true, true)] ∧
      (SendCeleryMessage demoEnv (demoWorld [] false) b 7).2.trace.filterMap
        Call.exchangeDecl = [("default", "direct", true, true)] ∧
      (CreateQueue demoEnv (demoWorld [] false) b).2.trace.filterMap Call.queueDecl
        = [("celery", true, false)] ∧
      (SendCeleryMessage demoEnv (demoWorld [] false) b 7).2.trace.filterMap
        Call.queueDecl = [("celery", true, false)] := by
  refine ⟨{ demoBroker with exchange := NewAMQPExchange "tasks" },
    rfl, by decide, by decide, by decide, by decide⟩

/-- C7: when the dial, the channel open, the exchange declaration, the queue
declaration, the prefetch setting and (if asked for) the consume all succeed,
NewAMQPCeleryBrokerWithOptions returns a broker, and the calls it has made
are, in this order: dial, open channel, declare exchange (exchangeName, direct,
durable, auto-delete), declare queue (queueName, durable, not auto-delete),
set prefetch (count rate, size 0, not global), and then one consume on
queueName exactly when consumable is true. The broker retains rate and the
two names, and has a consuming stream exactly when consumable is true. -/
theorem NewAMQPCeleryBrokerWithOptions_order (env : Env CM TM) (w : World TM)
    (host exchangeName queueName : String) (rate : Int) (consumable : Bool)
    (conn ch stream : Nat)
    (hdial : env.dial w.trace host = .ok conn)
    (hchan : env.connectionChannel (w.trace ++ [Call.dial host]) conn = .ok ch)
    (hexch : env.fails (w.trace ++ [Call.dial host, Call.connectionChannel conn])
      (Call.exchangeDeclare ch exchangeName "direct" true true false false) = none)
    (hqueue : env.fails (w.trace ++ [Call.dial host, Call.connectionChannel conn,
        Call.exchangeDeclare ch exchangeName "direct" true true false false])
      (Call.queueDeclare ch queueName true false false false) = none)
    (hqos : env.fails (w.trace ++ [Call.dial host, Call.connectionChannel conn,
        Call.exchangeDeclare ch exchangeName "direct" true true false false,
        Call.queueDeclare ch queueName true false false false])
      (Call.qos ch rate 0 false) = none)
    (hcons : consumable = true →
      env.consume (w.trace ++ [Call.dial host, Call.connectionChannel conn,
        Call.exchangeDeclare ch exchangeName "direct" true true false false,
        Call.queueDeclare ch queueName true false false false,
        Call.qos ch rate 0 false])
      (Call.consume ch queueName "" false false false false) = .ok stream) :
    (NewAMQPCeleryBrokerWithOptions env w host exchangeName queueName rate consumable).1
      = .ok { Channel := ch, connection := conn,
              exchange := NewAMQPExchange exchangeName,
              queue := NewAMQPQueue queueName,
              consumingChannel := if consumable then some stream else none,
              rate := rate } ∧
    (NewAMQPCeleryBrokerWithOptions env w host exchangeName queueName rate
        consumable).2.trace
      = w.trace ++ [Call.dial host, Call.connectionChannel conn,
          Call.exchangeDeclare ch exchangeName "direct" true true false false,
          Call.queueDeclare ch queueName true false false false,
          Call.qos ch rate 0 false] ++
        (if consumable then [Call.consume ch queueName "" false false false false]
         else []) := by
  cases consumable with
  | false =>
    simp [NewAMQPCeleryBrokerWithOptions, NewAMQPConnection, CreateExchange,
      CreateQueue, World.call, World.log, NewAMQPExchange, NewAMQPQueue,
      hdial, hchan, hexch, hqueue, hqos]
  | true =>
    have hc := hcons rfl
    simp [NewAMQPCeleryBrokerWithOptions, NewAMQPConnection, CreateExchange,
      CreateQueue, StartConsumingChannel, World.call, World.log, NewAMQPExchange,
      NewAMQPQueue, hdial, hchan, hexch, hqueue, hqos, hc]

/-- C7 witness: NewAMQPCeleryBroker arguments in the environment where every
call succeeds. -/
theorem NewAMQPCeleryBrokerWithOptions_order_witness :
    (NewAMQPCeleryBrokerWithOptions demoEnv (demoWorld [] false)
        "amqp://host" "default" "celery" 4 true).1
      = .ok { Channel := 2, connection := 1,
              exchange := NewAMQPExchange "default",
              queue := NewAMQPQueue "celery",
              consumingChannel := if true then some 3 else none,
              rate := 4 } ∧
    (NewAMQPCeleryBrokerWithOptions demoEnv (demoWorld [] false)
        "amqp://host" "default" "celery" 4 true).2.trace
      = (demoWorld [] false).trace ++ [Call.dial "amqp://host", Call.connectionChannel 1,
          Call.exchangeDeclare 2 "default" "direct" true true false false,
          Call.queueDeclare 2 "celery" true false false false,
          Call.qos 2 4 0 false] ++
        (if true then [Call.consume 2 "celery" "" false false false false]
         else []) :=
  NewAMQPCeleryBrokerWithOptions_order demoEnv (demoWorld [] false)
    "amqp://host" "default" "celery" 4 true 1 2 3 rfl rfl rfl rfl rfl (fun _ => rfl)

/-- C8: StartConsumingChannel makes exactly one call, a consume on the queue
name of the broker with autoAck = false; when it succeeds no error is returned
and the broker is the old one with the new stream as consuming stream; when it
fails the error is returned and the broker is unchanged. The delivery streams
of the world are untouched either way. -/
theorem StartConsumingChannel_effect (env : Env CM TM) (w : World TM)
    (b : AMQPCeleryBroker) :
    (StartConsumingChannel env w b).2.2.trace
      = w.trace ++ [Call.consume b.Channel b.queue.Name "" false false false false] ∧
    (StartConsumingChannel env w b).2.2.chans = w.chans ∧
    (∀ stream : Nat,
      env.consume w.trace
        (Call.consume b.Channel b.queue.Name "" false false false false) = .ok stream →
      (StartConsumingChannel env w b).1 = none ∧
      (StartConsumingChannel env w b).2.1 = { b with consumingChannel := some stream }) ∧
    (∀ err : GoError,
      env.consume w.trace
        (Call.consume b.Channel b.queue.Name "" false false false false) = .error err →
      (StartConsumingChannel env w b).1 = some err ∧
      (StartConsumingChannel env w b).2.1 = b) := by
  unfold StartConsumingChannel
  cases h : env.consume w.trace
      (Call.consume b.Channel b.queue.Name "" false false false false) with
  | error e => simp [h, World.log]
  | ok s => simp [h, World.log]

/-- C8 witness: a successful start on a broker with no stream yet, and a
failing start that leaves the broker as it was. -/
theorem StartConsumingChannel_effect_witness :
    ((StartConsumingChannel demoEnv (demoWorld [] false)
        { demoBroker with consumingChannel := none }).1 = none ∧
      (StartConsumingChannel demoEnv (demoWorld [] false)
        { demoBroker with consumingChannel := none }).2.1
        = { { demoBroker with consumingChannel := none } with
            consumingChannel := some 3 }) ∧
    ((StartConsumingChannel noConsumeEnv (demoWorld [] false) demoBroker).1
        = some ⟨"no such queue"⟩ ∧
      (StartConsumingChannel noConsumeEnv (demoWorld [] false) demoBroker).2.1
        = demoBroker) :=
  ⟨(StartConsumingChannel_effect demoEnv (demoWorld [] false)
      { demoBroker with consumingChannel := none }).2.2.1 3 rfl,
   (StartConsumingChannel_effect noConsumeEnv (demoWorld [] false)
      demoBroker).2.2.2 ⟨"no such queue"⟩ rfl⟩

/-- C9: when the queue declaration, the exchange declaration and the
serialization of message.GetTaskMessage() succeed, SendCeleryMessage issues
one publish, with mandatory = false and immediate = false, whose envelope has
the persistent delivery mode, content type "application/json" and the
serialized task message as body; its result is the result of that publish. -/
theorem SendCeleryMessage_envelope (env : Env CM TM) (w : World TM)
    (b : AMQPCeleryBroker) (message : CM) (body : Bytes)
    (hqueue : env.fails w.trace
      (Call.queueDeclare b.Channel b.queue.Name true false false false) = none)
    (hexch : env.fails
      (w.trace ++ [Call.queueDeclare b.Channel b.queue.Name true false false false])
      (Call.exchangeDeclare b.Channel "default" "direct" true true false false) = none)
    (hbody : env.marshal (env.getTaskMessage message) = .ok body) :
    ∃ (timestamp : Nat) (exchange key : String),
      (SendCeleryMessage env w b message).2.trace
        = w.trace ++ [Call.queueDeclare b.Channel b.queue.Name true false false false,
            Call.exchangeDeclare b.Channel "default" "direct" true true false false,
            Call.jsonMarshal (env.getTaskMessage message),
            Call.publish b.Channel exchange key false false
              { DeliveryMode := Persistent, Timestamp := timestamp,
                ContentType := "application/json", Body := body }] ∧
      (SendCeleryMessage env w b message).1
        = env.fails
            (w.trace ++ [Call.queueDeclare b.Channel b.queue.Name true false false false,
              Call.exchangeDeclare b.Channel "default" "direct" true true false false,
              Call.jsonMarshal (env.getTaskMessage message)])
            (Call.publish b.Channel exchange key false false
              { DeliveryMode := Persistent, Timestamp := timestamp,
                ContentType := "application/json", Body := body }) := by
  refine ⟨env.now (w.trace ++
      [Call.queueDeclare b.Channel b.queue.Name true false false false,
       Call.exchangeDeclare b.Channel "default" "direct" true true false false,
       Call.jsonMarshal (env.getTaskMessage message)]), "", b.queue.Name, ?_, ?_⟩
  · simp [SendCeleryMessage, World.call, World.log, hqueue, hexch, hbody]
  · simp [SendCeleryMessage, World.call, World.log, hqueue, hexch, hbody]

/-- C9 witness: sending task 7 through `demoBroker`. -/
theorem SendCeleryMessage_envelope_witness :
    ∃ (timestamp : Nat) (exchange key : String),
      (SendCeleryMessage demoEnv (demoWorld [] false) demoBroker 7).2.trace
        = (demoWorld [] false).trace ++
          [Call.queueDeclare demoBroker.Channel demoBroker.queue.Name true false false false,
            Call.exchangeDeclare demoBroker.Channel "default" "direct" true true false false,
            Call.jsonMarshal (demoEnv.getTaskMessage 7),
            Call.publish demoBroker.Channel exchange key false false
              { DeliveryMode := Persistent, Timestamp := timestamp,
                ContentType := "application/json", Body := [123, 7, 125] }] ∧
      (SendCeleryMessage demoEnv (demoWorld [] false) demoBroker 7).1
        = demoEnv.fails
            ((demoWorld [] false).trace ++
              [Call.queueDeclare demoBroker.Channel demoBroker.queue.Name true false false false,
              Call.exchangeDeclare demoBroker.Channel "default" "direct" true true false false,
              Call.jsonMarshal (demoEnv.getTaskMessage 7)])
            (Call.publish demoBroker.Channel exchange key false false
              { DeliveryMode := Persistent, Timestamp := timestamp,
                ContentType := "application/json", Body := [123, 7, 125] }) :=
  SendCeleryMessage_envelope demoEnv (demoWorld [] false) demoBroker 7 [123, 7, 125]
    rfl rfl rfl

/-- C10: SendCeleryMessage never retries and propagates the first failure.
The calls one SendCeleryMessage adds to the trace hold at most one queue
declaration, one exchange declaration and one publish. If the queue
declaration fails, its error is returned and it is the only call. If it
succeeds and the exchange declaration fails, that error is returned and the
two declarations are the only calls. If both succeed and the serialization
fails, that error is returned and no publish is issued. If all three succeed,
one publish follows the two declarations, in that order, and the result of
SendCeleryMessage is the result of that publish, unchanged. -/
theorem SendCeleryMessage_no_retry (env : Env CM TM) (w : World TM)
    (b : AMQPCeleryBroker) (message : CM) :
    (((SendCeleryMessage env w b message).2.trace.drop w.trace.length).countP
        Call.isQueueDeclare ≤ 1 ∧
      ((SendCeleryMessage env w b message).2.trace.drop w.trace.length).countP
        Call.isExchangeDeclare ≤ 1 ∧
      ((SendCeleryMessage env w b message).2.trace.drop w.trace.length).countP
        Call.isPublish ≤ 1) ∧
    (∀ err : GoError,
      env.fails w.trace
        (Call.queueDeclare b.Channel b.queue.Name true false false false) = some err →
      (SendCeleryMessage env w b message).1 = some err ∧
      (SendCeleryMessage env w b message).2.trace
        = w.trace ++ [Call.queueDeclare b.Channel b.queue.Name true false false false]) ∧
    (env.fails w.trace
        (Call.queueDeclare b.Channel b.queue.Name true false false false) = none →
      ∀ err : GoError,
      env.fails
        (w.trace ++ [Call.queueDeclare b.Channel b.queue.Name true false false false])
        (Call.exchangeDeclare b.Channel "default" "direct" true true false false)
        = some err →
      (SendCeleryMessage env w b message).1 = some err ∧
      (SendCeleryMessage env w b message).2.trace
        = w.trace ++ [Call.queueDeclare b.Channel b.queue.Name true false false false,
            Call.exchangeDeclare b.Channel "default" "direct" true true false false]) ∧
    (env.fails w.trace
        (Call.queueDeclare b.Channel b.queue.Name true false false false) = none →
      env.fails
        (w.trace ++ [Call.queueDeclare b.Channel b.queue.Name true false false false])
        (Call.exchangeDeclare b.Channel "default" "direct" true true false false)
        = none →
      ∀ err : GoError,
      env.marshal (env.getTaskMessage message) = .error err →
      (SendCeleryMessage env w b message).1 = some err ∧
      (SendCeleryMessage env w b message).2.trace
        = w.trace ++ [Call.queueDeclare b.Channel b.queue.Name true false false false,
            Call.exchangeDeclare b.Channel "default" "direct" true true false false,
            Call.jsonMarshal (env.getTaskMessage message)]) ∧
    (env.fails w.trace
        (Call.queueDeclare b.Channel b.queue.Name true false false false) = none →
      env.fails
        (w.trace ++ [Call.queueDeclare b.Channel b.queue.Name true false false false])
        (Call.exchangeDeclare b.Channel "default" "direct" true true false false)
        = none →
      ∀ body : Bytes,
      env.marshal (env.getTaskMessage message) = .ok body →
      ∃ pub : Call TM,
        pub.isPublish = true ∧
        (SendCeleryMessage env w b message).1
          = env.fails
              (w.trace ++ [Call.queueDeclare b.Channel b.queue.Name true false false false,
                Call.exchangeDeclare b.Channel "default" "direct" true true false false,
                Call.jsonMarshal (env.getTaskMessage message)]) pub ∧
        (SendCeleryMessage env w b message).2.trace
          = w.trace ++ [Call.queueDeclare b.Channel b.queue.Name true false false false,
              Call.exchangeDeclare b.Channel "default" "direct" true true false false,
              Call.jsonMarshal (env.getTaskMessage message), pub]) := by
  refine ⟨?_, ?_, ?_, ?_, ?_⟩
  · cases h1 : env.fails w.trace
        (Call.queueDeclare b.Channel b.queue.Name true false false false) with
    | some e =>
      simp [SendCeleryMessage, World.call, World.log, h1, List.countP_cons,
        Call.isQueueDeclare, Call.isExchangeDeclare, Call.isPublish]
    | none =>
      cases h2 : env.fails
          (w.trace ++ [Call.queueDeclare b.Channel b.queue.Name true false false false])
          (Call.exchangeDeclare b.Channel "default" "direct" true true false false) with
      | some e =>
        simp [SendCeleryMessage, World.call, World.log, h1, h2, List.countP_cons,
          Call.isQueueDeclare, Call.isExchangeDeclare, Call.isPublish]
      | none =>
        cases h3 : env.marshal (env.getTaskMessage message) with
        | error e =>
          simp [SendCeleryMessage, World.call, World.log, h1, h2, h3, List.countP_cons,
            Call.isQueueDeclare, Call.isExchangeDeclare, Call.isPublish]
        | ok body =>
          simp [SendCeleryMessage, World.call, World.log, h1, h2, h3, List.countP_cons,
            Call.isQueueDeclare, Call.isExchangeDeclare, Call.isPublish]
  · intro err h1
    simp [SendCeleryMessage, World.call, World.log, h1]
  · intro h1 err h2
    simp [SendCeleryMessage, World.call, World.log, h1, h2]
  · intro h1 h2 err h3
    simp [SendCeleryMessage, World.call, World.log, h1, h2, h3]
  · intro h1 h2 body h3
    refine ⟨Call.publish b.Channel "" b.queue.Name false false
        { DeliveryMode := Persistent,
          Timestamp := env.now (w.trace ++
            [Call.queueDeclare b.Channel b.queue.Name true false false false,
             Call.exchangeDeclare b.Channel "default" "direct" true true false false,
             Call.jsonMarshal (env.getTaskMessage message)]),
          ContentType := "application/json", Body := body }, rfl, ?_, ?_⟩ <;>
    simp [SendCeleryMessage, World.call, World.log, h1, h2, h3]

/-- C10 witness: a failing queue declaration, a failing exchange declaration,
a failing serialization and a failing publish, each returned as it is, with
no call after the failing step. -/
theorem SendCeleryMessage_no_retry_witness :
    ((SendCeleryMessage noQueueEnv (demoWorld [] false) demoBroker 7).1
        = some ⟨"queue declare failed"⟩ ∧
      (SendCeleryMessage noQueueEnv (demoWorld [] false) demoBroker 7).2.trace
        = (demoWorld [] false).trace ++
          [Call.queueDeclare demoBroker.Channel demoBroker.queue.Name
            true false false false]) ∧
    ((SendCeleryMessage noExchangeEnv (demoWorld [] false) demoBroker 7).1
        = some ⟨"exchange declare failed"⟩ ∧
      (SendCeleryMessage noExchangeEnv (demoWorld [] false) demoBroker 7).2.trace
        = (demoWorld [] false).trace ++
          [Call.queueDeclare demoBroker.Channel demoBroker.queue.Name
            true false false false,
           Call.exchangeDeclare demoBroker.Channel "default" "direct"
            true true false false]) ∧
    ((SendCeleryMessage noMarshalEnv (demoWorld [] false) demoBroker 7).1
        = some ⟨"unsupported value"⟩ ∧
      (SendCeleryMessage noMarshalEnv (demoWorld [] false) demoBroker 7).2.trace
        = (demoWorld [] false).trace ++
          [Call.queueDeclare demoBroker.Channel demoBroker.queue.Name
            true false false false,
           Call.exchangeDeclare demoBroker.Channel "default" "direct"
            true true false false,
           Call.jsonMarshal (noMarshalEnv.getTaskMessage 7)]) ∧
    (SendCeleryMessage noPublishEnv (demoWorld [] false) demoBroker 7).1
      = some ⟨"channel closed"⟩ :=
  ⟨(SendCeleryMessage_no_retry noQueueEnv (demoWorld [] false) demoBroker 7).2.1
      ⟨"queue declare failed"⟩ rfl,
   (SendCeleryMessage_no_retry noExchangeEnv (demoWorld [] false) demoBroker 7).2.2.1
      rfl ⟨"exchange declare failed"⟩ rfl,
   (SendCeleryMessage_no_retry noMarshalEnv (demoWorld [] false) demoBroker 7).2.2.2.1
      rfl rfl ⟨"unsupported value"⟩ rfl,
   rfl⟩

end GoCelery
